import Mathlib

/-!
Shallow embedding of the pgao monitoring core (github.com/zvdy/pgao):
the alert / health-status data model (src/models/alert.go, models/metrics.go),
the performance analyzer (src/analyzer/performance_analyzer.go), the
connection registry (src/db, `ConnectionPool`) and the metrics collector
(src/collector).  Go float64 values are modelled as exact rationals, Go
`time.Time` as an abstract tick counter passed in explicitly wherever the
source calls time.Now(), and the database / network effects of the pgx
library as an explicit oracle environment.  String formatting of numbers
(fmt.Sprintf verbs such as percent dot one f) is abstracted by a concrete
injective-enough rendering `fmtQ`; no claim below depends on the exact
rendered digits.
-/

namespace Pgao

/-- AlertSeverity (src/models/alert.go). -/
inductive AlertSeverity where
  | critical
  | high
  | medium
  | low
  | info
deriving DecidableEq, Repr, BEq

/-- AlertType (src/models/alert.go). -/
inductive AlertType where
  | performance
  | availability
  | capacity
  | security
  | configuration
  | replication
  | connection
  | query
deriving DecidableEq, Repr, BEq

/-- A value stored in the Alert.Metadata bag (Go map from string to
interface values; the analyzer only ever stores strings and integers). -/
inductive MetaVal where
  | str (s : String)
  | int (i : Int)
deriving DecidableEq, Repr, BEq

/-- Alert (src/models/alert.go).  Go `time.Time` fields are ticks,
`Metadata` is an association list in insertion order. -/
structure Alert where
  id : String
  type : AlertType
  severity : AlertSeverity
  clusterID : String
  title : String
  description : String
  metric : String
  threshold : ℚ
  currentValue : ℚ
  timestamp : Nat
  status : String
  acknowledgedAt : Option Nat
  acknowledgedBy : String
  resolvedAt : Option Nat
  metadata : List (String × MetaVal)
  actions : List String
deriving DecidableEq, Repr

/-- NewAlert (src/models/alert.go): the `now` argument models time.Now(). -/
def NewAlert (now : Nat) (alertType : AlertType) (severity : AlertSeverity)
    (clusterID title description : String) : Alert where
  id := ""
  type := alertType
  severity := severity
  clusterID := clusterID
  title := title
  description := description
  metric := ""
  threshold := 0
  currentValue := 0
  timestamp := now
  status := "active"
  acknowledgedAt := none
  acknowledgedBy := ""
  resolvedAt := none
  metadata := []
  actions := []

/-- Alert.AddAction (src/models/alert.go). -/
def Alert.AddAction (a : Alert) (action : String) : Alert :=
  { a with actions := a.actions ++ [action] }

/-- HealthCheck (src/models/alert.go). -/
structure HealthCheck where
  name : String
  status : String
  message : String
  lastChecked : Nat
  value : ℚ
deriving DecidableEq, Repr

/-- HealthStatus (src/models/alert.go). -/
structure HealthStatus where
  clusterID : String
  status : String
  score : Nat
  activeAlerts : Nat
  criticalAlerts : Nat
  lastCheck : Nat
  checks : List HealthCheck
deriving DecidableEq, Repr

/-- NewHealthStatus (src/models/alert.go). -/
def NewHealthStatus (clusterID : String) (now : Nat) : HealthStatus where
  clusterID := clusterID
  status := "unknown"
  score := 0
  activeAlerts := 0
  criticalAlerts := 0
  lastCheck := now
  checks := []

/-- HealthStatus.calculateScore (src/models/alert.go).  The Go method
mutates the receiver; here it returns the updated value. -/
def HealthStatus.calculateScore (hs : HealthStatus) : HealthStatus :=
  if hs.checks.length = 0 then
    { hs with score := 0, status := "unknown" }
  else
    let passedChecks :=
      hs.checks.countP (fun c => c.status == "ok" || c.status == "healthy")
    let score := (passedChecks * 100) / hs.checks.length
    let status :=
      if score ≥ 90 then "healthy"
      else if score ≥ 70 then "warning"
      else if score ≥ 50 then "degraded"
      else "critical"
    { hs with score := score, status := status }

/-- HealthStatus.AddCheck (src/models/alert.go): append then recalculate. -/
def HealthStatus.AddCheck (hs : HealthStatus) (check : HealthCheck) : HealthStatus :=
  HealthStatus.calculateScore { hs with checks := hs.checks ++ [check] }

/-- Metrics (src/models/metrics.go). -/
structure Metrics where
  clusterID : String
  timestamp : Nat
  connectionsActive : Int
  connectionsTotal : Int
  transactionsPerSec : ℚ
  cacheHitRatio : ℚ
  diskIORead : ℚ
  diskIOWrite : ℚ
  cpuUsage : ℚ
  memoryUsage : ℚ
  lockWaits : Int
  deadlockCount : Int
  replicationLag : Int
  tableBloat : ℚ
  indexSize : Int
  tableSize : Int
deriving DecidableEq, Repr

/-- NewMetrics (src/models/metrics.go): only ClusterID and Timestamp are
set, every other field is left at the Go zero value. -/
def NewMetrics (clusterID : String) (now : Nat) : Metrics where
  clusterID := clusterID
  timestamp := now
  connectionsActive := 0
  connectionsTotal := 0
  transactionsPerSec := 0
  cacheHitRatio := 0
  diskIORead := 0
  diskIOWrite := 0
  cpuUsage := 0
  memoryUsage := 0
  lockWaits := 0
  deadlockCount := 0
  replicationLag := 0
  tableBloat := 0
  indexSize := 0
  tableSize := 0

/-- QueryMetrics (src/models/metrics.go), the fields the analyzer reads. -/
structure QueryMetrics where
  queryID : String
  query : String
  clusterID : String
  database : String
  executionTime : ℚ
  planningTime : ℚ
  rowsReturned : Int
  rowsAffected : Int
  sharedBlocksHit : Int
  sharedBlocksRead : Int
  tempBlocksRead : Int
  tempBlocksWritten : Int
  timestamp : Nat
  callCount : Int
  meanExecTime : ℚ
  stddevExecTime : ℚ
deriving DecidableEq, Repr

/-- NewQueryMetrics (src/models/metrics.go): only the four identifier
fields and the timestamp are set, every number is left at the Go zero
value. -/
def NewQueryMetrics (queryID query clusterID database : String) (now : Nat) :
    QueryMetrics where
  queryID := queryID
  query := query
  clusterID := clusterID
  database := database
  executionTime := 0
  planningTime := 0
  rowsReturned := 0
  rowsAffected := 0
  sharedBlocksHit := 0
  sharedBlocksRead := 0
  tempBlocksRead := 0
  tempBlocksWritten := 0
  timestamp := now
  callCount := 0
  meanExecTime := 0
  stddevExecTime := 0

/-- Abstract rendering of a rational for alert message strings, standing in
for the fmt.Sprintf float verbs of the source. -/
def fmtQ (x : ℚ) : String :=
  toString x.num ++ "/" ++ toString x.den

/-- Abstract rendering of an integer for alert message strings. -/
def fmtInt (x : Int) : String :=
  toString x

/-- PerformanceThresholds (src/analyzer/performance_analyzer.go). -/
structure PerformanceThresholds where
  maxConnectionsPercent : ℚ
  minCacheHitRatio : ℚ
  maxCPUPercent : ℚ
  maxMemoryPercent : ℚ
  maxReplicationLagMs : Int
  maxSlowQueryTimeMs : ℚ
  maxTableBloatPercent : ℚ
deriving DecidableEq, Repr

/-- DefaultThresholds (src/analyzer/performance_analyzer.go). -/
def DefaultThresholds : PerformanceThresholds where
  maxConnectionsPercent := 80
  minCacheHitRatio := 95
  maxCPUPercent := 80
  maxMemoryPercent := 85
  maxReplicationLagMs := 10000
  maxSlowQueryTimeMs := 1000
  maxTableBloatPercent := 20

/-- getSeverity (src/analyzer/performance_analyzer.go). -/
def getSeverity (value warning high critical : ℚ) : AlertSeverity :=
  if value ≥ critical then .critical
  else if value ≥ high then .high
  else if value ≥ warning then .medium
  else .low

/-- getSeverityBelow (src/analyzer/performance_analyzer.go). -/
def getSeverityBelow (value warning high critical : ℚ) : AlertSeverity :=
  if value ≤ critical then .critical
  else if value ≤ high then .high
  else if value ≤ warning then .medium
  else .low

/-- getSeverityLag (src/analyzer/performance_analyzer.go). -/
def getSeverityLag (value warning high critical : Int) : AlertSeverity :=
  if value ≥ critical then .critical
  else if value ≥ high then .high
  else if value ≥ warning then .medium
  else .low

/-- AnalyzeMetrics (src/analyzer/performance_analyzer.go).  `th` is the
analyzer's configured thresholds, `now` the clock observed by time.Now()
inside models.NewAlert during this invocation. -/
def AnalyzeMetrics (th : PerformanceThresholds) (now : Nat)
    (metrics : Metrics) : List Alert :=
  let alerts : List Alert := []
  -- Check connection usage
  let alerts :=
    if metrics.connectionsTotal > 0 then
      let connPercent :=
        ((metrics.connectionsActive : ℚ) / (metrics.connectionsTotal : ℚ)) * 100
      if connPercent > th.maxConnectionsPercent then
        let alert := NewAlert now .connection
          (getSeverity connPercent th.maxConnectionsPercent 90 95)
          metrics.clusterID
          "High Connection Usage"
          ("Active connections at " ++ fmtQ connPercent ++ "% of maximum capacity")
        let alert := { alert with
          metric := "connections_active"
          threshold := th.maxConnectionsPercent
          currentValue := connPercent }
        let alert := Alert.AddAction alert
          "Consider increasing max_connections or optimizing connection pooling"
        alerts ++ [alert]
      else alerts
    else alerts
  -- Check cache hit ratio
  let alerts :=
    if metrics.cacheHitRatio < th.minCacheHitRatio then
      let alert := NewAlert now .performance
        (getSeverityBelow metrics.cacheHitRatio th.minCacheHitRatio 90 85)
        metrics.clusterID
        "Low Cache Hit Ratio"
        ("Cache hit ratio at " ++ fmtQ metrics.cacheHitRatio ++
          "%, below recommended " ++ fmtQ th.minCacheHitRatio ++ "%")
      let alert := { alert with
        metric := "cache_hit_ratio"
        threshold := th.minCacheHitRatio
        currentValue := metrics.cacheHitRatio }
      let alert := Alert.AddAction alert "Consider increasing shared_buffers"
      let alert := Alert.AddAction alert "Review query patterns for optimization"
      alerts ++ [alert]
    else alerts
  -- Check CPU usage
  let alerts :=
    if metrics.cpuUsage > th.maxCPUPercent then
      let alert := NewAlert now .performance
        (getSeverity metrics.cpuUsage th.maxCPUPercent 90 95)
        metrics.clusterID
        "High CPU Usage"
        ("CPU usage at " ++ fmtQ metrics.cpuUsage ++ "%")
      let alert := { alert with
        metric := "cpu_usage"
        threshold := th.maxCPUPercent
        currentValue := metrics.cpuUsage }
      let alert := Alert.AddAction alert "Identify and optimize expensive queries"
      let alert := Alert.AddAction alert "Consider scaling up the instance"
      alerts ++ [alert]
    else alerts
  -- Check memory usage
  let alerts :=
    if metrics.memoryUsage > th.maxMemoryPercent then
      let alert := NewAlert now .capacity
        (getSeverity metrics.memoryUsage th.maxMemoryPercent 90 95)
        metrics.clusterID
        "High Memory Usage"
        ("Memory usage at " ++ fmtQ metrics.memoryUsage ++ "%")
      let alert := { alert with
        metric := "memory_usage"
        threshold := th.maxMemoryPercent
        currentValue := metrics.memoryUsage }
      let alert := Alert.AddAction alert "Review and optimize memory-intensive queries"
      let alert := Alert.AddAction alert "Consider increasing available memory"
      alerts ++ [alert]
    else alerts
  -- Check replication lag
  let alerts :=
    if metrics.replicationLag > th.maxReplicationLagMs then
      let alert := NewAlert now .replication
        (getSeverityLag metrics.replicationLag th.maxReplicationLagMs 30000 60000)
        metrics.clusterID
        "High Replication Lag"
        ("Replication lag at " ++ fmtInt metrics.replicationLag ++ "ms")
      let alert := { alert with
        metric := "replication_lag"
        threshold := (th.maxReplicationLagMs : ℚ)
        currentValue := (metrics.replicationLag : ℚ) }
      let alert := Alert.AddAction alert
        "Check network connectivity between primary and replica"
      let alert := Alert.AddAction alert "Review write load on primary"
      alerts ++ [alert]
    else alerts
  -- Check for lock waits
  let alerts :=
    if metrics.lockWaits > 100 then
      let alert := NewAlert now .performance .medium
        metrics.clusterID
        "High Lock Waits"
        (fmtInt metrics.lockWaits ++ " queries waiting for locks")
      let alert := { alert with
        metric := "lock_waits"
        currentValue := (metrics.lockWaits : ℚ) }
      let alert := Alert.AddAction alert "Review long-running transactions"
      let alert := Alert.AddAction alert "Optimize query access patterns"
      alerts ++ [alert]
    else alerts
  -- Check for deadlocks
  let alerts :=
    if metrics.deadlockCount > 0 then
      let alert := NewAlert now .performance .high
        metrics.clusterID
        "Deadlocks Detected"
        (fmtInt metrics.deadlockCount ++ " deadlocks detected")
      let alert := { alert with
        metric := "deadlock_count"
        currentValue := (metrics.deadlockCount : ℚ) }
      let alert := Alert.AddAction alert "Review transaction ordering"
      let alert := Alert.AddAction alert "Consider implementing retry logic"
      alerts ++ [alert]
    else alerts
  -- Check table bloat
  let alerts :=
    if metrics.tableBloat > th.maxTableBloatPercent then
      let alert := NewAlert now .capacity
        (getSeverity metrics.tableBloat th.maxTableBloatPercent 30 40)
        metrics.clusterID
        "High Table Bloat"
        ("Table bloat at " ++ fmtQ metrics.tableBloat ++ "%")
      let alert := { alert with
        metric := "table_bloat"
        threshold := th.maxTableBloatPercent
        currentValue := metrics.tableBloat }
      let alert := Alert.AddAction alert "Run VACUUM ANALYZE"
      let alert := Alert.AddAction alert "Consider VACUUM FULL for heavily bloated tables"
      alerts ++ [alert]
    else alerts
  alerts

/-- AnalyzeQueryPerformance (src/analyzer/performance_analyzer.go). -/
def AnalyzeQueryPerformance (th : PerformanceThresholds) (now : Nat)
    (qm : QueryMetrics) : List Alert :=
  let alerts : List Alert := []
  -- Check slow queries
  let alerts :=
    if qm.executionTime > th.maxSlowQueryTimeMs then
      let severity : AlertSeverity :=
        if qm.executionTime > th.maxSlowQueryTimeMs * 10 then .critical
        else if qm.executionTime > th.maxSlowQueryTimeMs * 5 then .high
        else .medium
      let alert := NewAlert now .query severity
        qm.clusterID
        "Slow Query Detected"
        ("Query took " ++ fmtQ qm.executionTime ++ "ms to execute")
      let alert := { alert with
        metric := "execution_time"
        threshold := th.maxSlowQueryTimeMs
        currentValue := qm.executionTime
        metadata := [("query_id", .str qm.queryID), ("database", .str qm.database)] }
      let alert := Alert.AddAction alert "Analyze query with EXPLAIN ANALYZE"
      let alert := Alert.AddAction alert "Check for missing indexes"
      let alert := Alert.AddAction alert "Consider query optimization"
      alerts ++ [alert]
    else alerts
  -- Check for high temp blocks usage (indicates lack of work_mem)
  let alerts :=
    if qm.tempBlocksRead > 10000 ∨ qm.tempBlocksWritten > 10000 then
      let alert := NewAlert now .performance .medium
        qm.clusterID
        "High Temp Block Usage"
        ("Query using excessive temp blocks (read: " ++ fmtInt qm.tempBlocksRead ++
          ", written: " ++ fmtInt qm.tempBlocksWritten ++ ")")
      let alert := { alert with
        metadata := [("query_id", .str qm.queryID),
                     ("temp_blocks_read", .int qm.tempBlocksRead),
                     ("temp_blocks_written", .int qm.tempBlocksWritten)] }
      let alert := Alert.AddAction alert "Consider increasing work_mem"
      let alert := Alert.AddAction alert "Optimize sort and hash operations"
      alerts ++ [alert]
    else alerts
  alerts

/-- GenerateHealthStatus (src/analyzer/performance_analyzer.go). -/
def GenerateHealthStatus (th : PerformanceThresholds) (clusterID : String)
    (metrics : Metrics) (alerts : List Alert) (now : Nat) : HealthStatus :=
  let health := NewHealthStatus clusterID now
  -- Count alerts by severity
  let activeAlerts := (alerts.filter (fun a => a.status == "active")).length
  let criticalCount :=
    (alerts.filter (fun a =>
      a.status == "active" && a.severity == AlertSeverity.critical)).length
  let health := { health with
    activeAlerts := activeAlerts
    criticalAlerts := criticalCount }
  -- Add health checks
  let health := HealthStatus.AddCheck health
    { name := "Database Connectivity"
      status := "ok"
      message := "Database is reachable"
      lastChecked := now
      value := 0 }
  let health :=
    if metrics.connectionsTotal > 0 then
      let connPercent :=
        ((metrics.connectionsActive : ℚ) / (metrics.connectionsTotal : ℚ)) * 100
      let status := if connPercent > th.maxConnectionsPercent then "warning" else "ok"
      HealthStatus.AddCheck health
        { name := "Connection Pool"
          status := status
          message := fmtQ connPercent ++ "% connections in use"
          lastChecked := now
          value := connPercent }
    else health
  let cacheStatus :=
    if metrics.cacheHitRatio < th.minCacheHitRatio then "warning" else "ok"
  let health := HealthStatus.AddCheck health
    { name := "Cache Performance"
      status := cacheStatus
      message := fmtQ metrics.cacheHitRatio ++ "% cache hit ratio"
      lastChecked := now
      value := metrics.cacheHitRatio }
  let cpuStatus :=
    if metrics.cpuUsage > th.maxCPUPercent then "warning" else "ok"
  let health := HealthStatus.AddCheck health
    { name := "CPU Usage"
      status := cpuStatus
      message := fmtQ metrics.cpuUsage ++ "% CPU usage"
      lastChecked := now
      value := metrics.cpuUsage }
  let memStatus :=
    if metrics.memoryUsage > th.maxMemoryPercent then "warning" else "ok"
  let health := HealthStatus.AddCheck health
    { name := "Memory Usage"
      status := memStatus
      message := fmtQ metrics.memoryUsage ++ "% memory usage"
      lastChecked := now
      value := metrics.memoryUsage }
  health

/-! ### Connection registry (src/db, type ConnectionPool) -/

/-- ConnectionConfig (src/db).  Durations are nanosecond counts as in Go
`time.Duration`; zero/negative means unset. -/
structure ConnectionConfig where
  host : String
  port : Int
  user : String
  password : String
  database : String
  maxConnections : Int
  minConnections : Int
  connMaxLifetime : Int
  connMaxIdleTime : Int
  sslMode : String
deriving DecidableEq, Repr

/-- One nanosecond-count hour, Go time.Hour. -/
def goHour : Int := 3600 * 1000000000

/-- Thirty nanosecond-count minutes, Go 30 * time.Minute. -/
def goHalfHour : Int := 1800 * 1000000000

/-- The pgxpool configuration produced inside AddCluster: the parsed
connection string together with the pool bounds after defaulting. -/
structure PoolConfig where
  connString : String
  maxConns : Int
  minConns : Int
  maxConnLifetime : Int
  maxConnIdleTime : Int
deriving DecidableEq, Repr

/-- A live pgxpool.Pool, identified by the configuration it was built
from (the embedding tracks no per-connection state). -/
structure Pool where
  config : PoolConfig
deriving DecidableEq, Repr

/-- The connection string built by AddCluster via fmt.Sprintf. -/
def buildConnString (config : ConnectionConfig) : String :=
  "postgres://" ++ config.user ++ ":" ++ config.password ++ "@" ++
    config.host ++ ":" ++ fmtInt config.port ++ "/" ++ config.database ++
    "?sslmode=" ++ config.sslMode

/-- The pool-configuration block of AddCluster: each bound falls back to
its default (25 / 5 / 1h / 30m) when the config leaves it unset. -/
def buildPoolConfig (config : ConnectionConfig) : PoolConfig where
  connString := buildConnString config
  maxConns := if config.maxConnections > 0 then config.maxConnections else 25
  minConns := if config.minConnections > 0 then config.minConnections else 5
  maxConnLifetime := if config.connMaxLifetime > 0 then config.connMaxLifetime else goHour
  maxConnIdleTime := if config.connMaxIdleTime > 0 then config.connMaxIdleTime else goHalfHour

/-- Oracle for the external pgx library effects: whether ParseConfig
accepts a connection string, whether NewWithConfig succeeds, and whether
Ping inside the five-second probe succeeds for a given pool config. -/
structure DBEnv where
  parseOk : String → Bool
  newPoolOk : PoolConfig → Bool
  pingOk : PoolConfig → Bool

/-- The errors the registry returns, one constructor per fmt.Errorf site
of src/db.  The spec taxonomy groups `createPoolFailed` and `pingFailed`
as ConnectionError, `parseConfigFailed` as ValidationError. -/
inductive RegistryError where
  | alreadyExists
  | parseConfigFailed
  | createPoolFailed
  | pingFailed
  | notFound
deriving DecidableEq, Repr

/-- Whether an error is a ConnectionError in the taxonomy of spec section 7
(pool creation or connectivity-probe failure). -/
def RegistryError.isConnectionError : RegistryError → Bool
  | .createPoolFailed => true
  | .pingFailed => true
  | _ => false

/-- The registry map clusterID -> pool, as an association list in
insertion order (Go map iteration order is unspecified). -/
abbrev Registry := List (String × Pool)

/-- Go map lookup pools[clusterID]. -/
def Registry.lookup (reg : Registry) (clusterID : String) : Option Pool :=
  (List.find? (fun p => p.1 == clusterID) reg).map Prod.snd

/-- Result of one AddCluster call: the registry afterwards, the returned
error if any, the pool constructed during the call if construction was
reached, and whether that pool was closed before returning. -/
structure AddResult where
  registry : Registry
  err : Option RegistryError
  builtPool : Option Pool
  closedBuilt : Bool
deriving DecidableEq

/-- ConnectionPool.AddCluster (src/db): duplicate check, connection-string
build, pool construction with defaulted bounds, bounded ping probe, and
only then insertion into the map. -/
def AddCluster (env : DBEnv) (reg : Registry) (clusterID : String)
    (config : ConnectionConfig) : AddResult :=
  -- Check if already exists
  if (reg.lookup clusterID).isSome then
    { registry := reg, err := some .alreadyExists, builtPool := none, closedBuilt := false }
  else
    -- Build connection string, parse it into a pool config
    let connString := buildConnString config
    if ¬ env.parseOk connString then
      { registry := reg, err := some .parseConfigFailed, builtPool := none, closedBuilt := false }
    else
      let poolConfig := buildPoolConfig config
      -- Create pool
      if ¬ env.newPoolOk poolConfig then
        { registry := reg, err := some .createPoolFailed, builtPool := none, closedBuilt := false }
      else
        let pool : Pool := { config := poolConfig }
        -- Test connection: on probe failure close the pool and abort
        if ¬ env.pingOk poolConfig then
          { registry := reg, err := some .pingFailed, builtPool := some pool, closedBuilt := true }
        else
          { registry := reg ++ [(clusterID, pool)], err := none,
            builtPool := some pool, closedBuilt := false }

/-- ConnectionPool.GetPool (src/db): NotFound for unknown ids. -/
def GetPool (reg : Registry) (clusterID : String) : Except RegistryError Pool :=
  match reg.lookup clusterID with
  | some pool => .ok pool
  | none => .error .notFound

/-- ConnectionPool.GetAllClusters (src/db), the spec ListClusterIDs. -/
def GetAllClusters (reg : Registry) : List String :=
  reg.map Prod.fst

/-- ConnectionPool.RemoveCluster (src/db). -/
def RemoveCluster (reg : Registry) (clusterID : String) :
    Except RegistryError Registry :=
  match reg.lookup clusterID with
  | none => .error .notFound
  | some _ => .ok (reg.filter (fun p => ¬ p.1 == clusterID))

/-! ### Metrics collector (src/collector, metrics_collector.go) -/

/-- Oracle for the row each statistics query of CollectClusterMetrics
returns: `none` models a query / scan error, `some` a successful scan.
The seven sub-collections read eight queries in all because the lock
sub-collection issues a second, deadlock-count query. -/
structure CollectorEnv where
  connQ : Option (Int × Int)
  cacheQ : Option ℚ
  txnQ : Option Int
  lockQ : Option Int
  deadlockQ : Option Int
  replQ : Option Int
  bloatQ : Option ℚ
  diskQ : Option (Int × Int)

/-- collectConnectionMetrics (src/collector): on success sets
ConnectionsActive / ConnectionsTotal, on scan error leaves them alone. -/
def collectConnectionMetrics (env : CollectorEnv) (metrics : Metrics) :
    Option Metrics :=
  match env.connQ with
  | none => none
  | some (active, maxConn) =>
    some { metrics with connectionsActive := active, connectionsTotal := maxConn }

/-- collectCacheMetrics (src/collector). -/
def collectCacheMetrics (env : CollectorEnv) (metrics : Metrics) :
    Option Metrics :=
  match env.cacheQ with
  | none => none
  | some ratio => some { metrics with cacheHitRatio := ratio }

/-- collectTransactionMetrics (src/collector): the TPS estimate divides a
single counter read by sixty. -/
def collectTransactionMetrics (env : CollectorEnv) (metrics : Metrics) :
    Option Metrics :=
  match env.txnQ with
  | none => none
  | some totalTxn => some { metrics with transactionsPerSec := (totalTxn : ℚ) / 60 }

/-- collectLockMetrics (src/collector): the lock-wait query failing fails
the sub-collection; the deadlock query failing is swallowed and only
skips the DeadlockCount assignment. -/
def collectLockMetrics (env : CollectorEnv) (metrics : Metrics) :
    Option Metrics :=
  match env.lockQ with
  | none => none
  | some lockWaits =>
    let metrics := { metrics with lockWaits := lockWaits }
    match env.deadlockQ with
    | some deadlocks => some { metrics with deadlockCount := deadlocks }
    | none => some metrics

/-- collectReplicationMetrics (src/collector). -/
def collectReplicationMetrics (env : CollectorEnv) (metrics : Metrics) :
    Option Metrics :=
  match env.replQ with
  | none => none
  | some lagMs => some { metrics with replicationLag := lagMs }

/-- collectBloatMetrics (src/collector). -/
def collectBloatMetrics (env : CollectorEnv) (metrics : Metrics) :
    Option Metrics :=
  match env.bloatQ with
  | none => none
  | some bloatPct => some { metrics with tableBloat := bloatPct }

/-- collectDiskIOMetrics (src/collector): block counts are converted to
kilobytes assuming eight-kilobyte blocks. -/
def collectDiskIOMetrics (env : CollectorEnv) (metrics : Metrics) :
    Option Metrics :=
  match env.diskQ with
  | none => none
  | some (blocksRead, blocksWritten) =>
    some { metrics with
      diskIORead := (blocksRead : ℚ) * 8
      diskIOWrite := (blocksWritten : ℚ) * 8 }

/-- MetricsCollector.CollectClusterMetrics (src/collector): pool lookup,
then the seven sub-collections in order, each failure merely logged (the
snapshot keeps the previous value), and the snapshot returned. -/
def CollectClusterMetrics (env : CollectorEnv) (reg : Registry)
    (clusterID : String) (now : Nat) : Except RegistryError Metrics :=
  let metrics := NewMetrics clusterID now
  match GetPool reg clusterID with
  | .error e => .error e
  | .ok _pool =>
    let metrics := (collectConnectionMetrics env metrics).getD metrics
    let metrics := (collectCacheMetrics env metrics).getD metrics
    let metrics := (collectTransactionMetrics env metrics).getD metrics
    let metrics := (collectLockMetrics env metrics).getD metrics
    let metrics := (collectReplicationMetrics env metrics).getD metrics
    let metrics := (collectBloatMetrics env metrics).getD metrics
    let metrics := (collectDiskIOMetrics env metrics).getD metrics
    .ok metrics

/-! ### Sample inputs and derived closed forms used by the development -/

/-- Closed form of the snapshot CollectClusterMetrics assembles from the
query oracle: each field carries the value of its own query when that
query succeeded and the NewMetrics default otherwise. -/
def collectedSnapshot (env : CollectorEnv) (clusterID : String) (now : Nat) : Metrics where
  clusterID := clusterID
  timestamp := now
  connectionsActive := match env.connQ with | some (a, _) => a | none => 0
  connectionsTotal := match env.connQ with | some (_, t) => t | none => 0
  transactionsPerSec := match env.txnQ with | some x => (x : ℚ) / 60 | none => 0
  cacheHitRatio := match env.cacheQ with | some r => r | none => 0
  diskIORead := match env.diskQ with | some (br, _) => (br : ℚ) * 8 | none => 0
  diskIOWrite := match env.diskQ with | some (_, bw) => (bw : ℚ) * 8 | none => 0
  cpuUsage := 0
  memoryUsage := 0
  lockWaits := match env.lockQ with | some lw => lw | none => 0
  deadlockCount :=
    match env.lockQ with
    | some _ => (match env.deadlockQ with | some d => d | none => 0)
    | none => 0
  replicationLag := match env.replQ with | some lag => lag | none => 0
  tableBloat := match env.bloatQ with | some b => b | none => 0
  indexSize := 0
  tableSize := 0

/-- The health score as the spec sentence words it: 100 times the count of
checks whose status is not warning, divided by the total check count,
rounded down, and 0 for an empty list.  Stated only to compare against the
source calculateScore, which instead counts checks whose status is ok or
healthy. -/
def specHealthScore (checks : List HealthCheck) : Nat :=
  if checks.length = 0 then 0
  else ((checks.countP fun c => ! (c.status == "warning")) * 100) / checks.length

/-- A health check whose status is neither ok, healthy nor warning. -/
def failedCheck : HealthCheck :=
  { name := "Probe", status := "failed", message := "probe failed",
    lastChecked := 0, value := 0 }

/-- The four checks of the worked example in claim C2, with statuses
ok, ok, warning, ok. -/
def exampleChecks : List HealthCheck :=
  [ { name := "a", status := "ok", message := "", lastChecked := 0, value := 0 },
    { name := "b", status := "ok", message := "", lastChecked := 0, value := 0 },
    { name := "c", status := "warning", message := "", lastChecked := 0, value := 0 },
    { name := "d", status := "ok", message := "", lastChecked := 0, value := 0 } ]

/-- The snapshot of claim C1: cache hit ratio 82, all other fields at the
NewMetrics defaults. -/
def c1Metrics : Metrics :=
  { NewMetrics "cluster-1" 0 with cacheHitRatio := 82 }

/-- The snapshot of claim C3: 90 of 100 connections active, all other
fields at the NewMetrics defaults. -/
def c3Metrics : Metrics :=
  { NewMetrics "cluster-1" 0 with connectionsActive := 90, connectionsTotal := 100 }

/-- Oracle in which parsing and pool creation succeed and every
connectivity probe fails (an unreachable host). -/
def probeFailEnv : DBEnv where
  parseOk := fun _ => true
  newPoolOk := fun _ => true
  pingOk := fun _ => false

/-- A concrete endpoint configuration with unset pool bounds. -/
def sampleConfig : ConnectionConfig where
  host := "db.example.com"
  port := 5432
  user := "postgres"
  password := "secret"
  database := "postgres"
  maxConnections := 0
  minConnections := 0
  connMaxLifetime := 0
  connMaxIdleTime := 0
  sslMode := "disable"

/-- A concrete pool standing for an earlier successful registration. -/
def samplePool : Pool where
  config :=
    { connString := "postgres://u:p@h:5432/d?sslmode=disable"
      maxConns := 25
      minConns := 5
      maxConnLifetime := goHour
      maxConnIdleTime := goHalfHour }

/-- The oracle of the C6 witness: the cache-ratio query errors while the
other seven queries succeed. -/
def c6Env : CollectorEnv where
  connQ := some (3, 10)
  cacheQ := none
  txnQ := some 120
  lockQ := some 1
  deadlockQ := some 0
  replQ := some 5
  bloatQ := some 2
  diskQ := some (4, 6)

/-- Erase the creation timestamp of an alert; it is the only alert field
into which the wall clock observed by NewAlert flows. -/
def Alert.clearTimestamp (a : Alert) : Alert :=
  { a with timestamp := 0 }

/-- The query metrics of claim C7: high temp-block usage, fast execution,
all other fields at the NewQueryMetrics defaults. -/
def c7QueryMetrics : QueryMetrics :=
  { NewQueryMetrics "q1" "SELECT 1" "cluster-1" "db1" 0 with tempBlocksRead := 20000 }

/-! ### Helper lemmas about calculateScore and AddCheck -/

/-- calculateScore leaves the check list unchanged. -/
@[simp]
theorem HealthStatus.calculateScore_checks (hs : HealthStatus) :
    hs.calculateScore.checks = hs.checks := by
  unfold HealthStatus.calculateScore
  split <;> rfl

/-- calculateScore leaves the cluster id unchanged. -/
@[simp]
theorem HealthStatus.calculateScore_clusterID (hs : HealthStatus) :
    hs.calculateScore.clusterID = hs.clusterID := by
  unfold HealthStatus.calculateScore
  split <;> rfl

/-- calculateScore leaves the active-alert count unchanged. -/
@[simp]
theorem HealthStatus.calculateScore_activeAlerts (hs : HealthStatus) :
    hs.calculateScore.activeAlerts = hs.activeAlerts := by
  unfold HealthStatus.calculateScore
  split <;> rfl

/-- calculateScore leaves the critical-alert count unchanged. -/
@[simp]
theorem HealthStatus.calculateScore_criticalAlerts (hs : HealthStatus) :
    hs.calculateScore.criticalAlerts = hs.criticalAlerts := by
  unfold HealthStatus.calculateScore
  split <;> rfl

/-- calculateScore leaves the last-check time unchanged. -/
@[simp]
theorem HealthStatus.calculateScore_lastCheck (hs : HealthStatus) :
    hs.calculateScore.lastCheck = hs.lastCheck := by
  unfold HealthStatus.calculateScore
  split <;> rfl

/-- The score computed by calculateScore, in closed form. -/
theorem HealthStatus.calculateScore_score (hs : HealthStatus) :
    hs.calculateScore.score =
      (if hs.checks.length = 0 then 0
       else ((hs.checks.countP fun c => c.status == "ok" || c.status == "healthy") * 100)
              / hs.checks.length) := by
  unfold HealthStatus.calculateScore
  split <;> simp [*]

/-- The status computed by calculateScore, in closed form. -/
theorem HealthStatus.calculateScore_status (hs : HealthStatus) :
    hs.calculateScore.status =
      (if hs.checks.length = 0 then "unknown"
       else
         let score := ((hs.checks.countP fun c => c.status == "ok" || c.status == "healthy") * 100)
                        / hs.checks.length
         if score ≥ 90 then "healthy"
         else if score ≥ 70 then "warning"
         else if score ≥ 50 then "degraded"
         else "critical") := by
  unfold HealthStatus.calculateScore
  split <;> simp [*]

/-- calculateScore only reads the fields that are not score and status, so
two states agreeing on those fields are sent to the same result. -/
theorem calculateScore_congr (a b : HealthStatus)
    (hid : a.clusterID = b.clusterID) (hact : a.activeAlerts = b.activeAlerts)
    (hcrit : a.criticalAlerts = b.criticalAlerts) (hlast : a.lastCheck = b.lastCheck)
    (hchecks : a.checks = b.checks) :
    a.calculateScore = b.calculateScore := by
  cases a
  cases b
  simp only at hid hact hcrit hlast hchecks
  subst hid hact hcrit hlast hchecks
  unfold HealthStatus.calculateScore
  split <;> rfl

/-- Folding AddCheck over a nonempty list amounts to appending all the
checks and running calculateScore once at the end. -/
theorem foldl_AddCheck_eq (cs : List HealthCheck) (hs : HealthStatus) (h : cs ≠ []) :
    cs.foldl HealthStatus.AddCheck hs =
      HealthStatus.calculateScore { hs with checks := hs.checks ++ cs } := by
  induction cs generalizing hs with
  | nil => exact absurd rfl h
  | cons c cs ih =>
    rw [List.foldl_cons]
    cases cs with
    | nil =>
      show HealthStatus.AddCheck hs c = _
      unfold HealthStatus.AddCheck
      rfl
    | cons c2 cs2 =>
      rw [ih (HealthStatus.AddCheck hs c) (by simp)]
      refine calculateScore_congr _ _ ?_ ?_ ?_ ?_ ?_ <;>
        simp [HealthStatus.AddCheck]

/-! ### Claim C1 -/

/-- Claim C1, counterexample: with CacheHitRatio 82 under the default
threshold 95 and tiers 90 / 85, AnalyzeMetrics does emit a cache-hit-ratio
alert, but getSeverityBelow classifies 82 ≤ 85 as critical, so no emitted
cache-hit-ratio alert has severity high. -/
theorem C1_counterexample :
    ¬ ∃ a ∈ AnalyzeMetrics DefaultThresholds 0 c1Metrics,
        a.metric = "cache_hit_ratio" ∧ a.severity = AlertSeverity.high := by
  decide

/-- Claim C1 (amended): for the snapshot with CacheHitRatio 82 and the
default minimum cache-hit-ratio threshold 95 with the lower tiers 90 and
85, AnalyzeMetrics emits exactly one cache-hit-ratio alert and its
severity is critical (82 is at or below the 85 tier). -/
theorem C1_cache_alert_critical :
    ((AnalyzeMetrics DefaultThresholds 0 c1Metrics).filter
      (fun a => a.metric == "cache_hit_ratio")).map Alert.severity
      = [AlertSeverity.critical] := by
  decide

/-! ### Claim C2 -/

/-- Claim C2, counterexample: on the singleton list with a check of status
failed, the code scores 0 because calculateScore counts ok / healthy
checks, while the claimed formula (checks not in warning) scores 100. -/
theorem C2_counterexample :
    (HealthStatus.AddCheck (NewHealthStatus "cluster-1" 0) failedCheck).score = 0 ∧
    specHealthScore [failedCheck] = 100 ∧
    (HealthStatus.AddCheck (NewHealthStatus "cluster-1" 0) failedCheck).score ≠
      specHealthScore [failedCheck] := by
  decide

/-- Claim C2 (amended): for every health-check list, the health score is
100 times the count of checks whose status is ok or healthy (not: all
checks not in warning), divided by the total check count and rounded down,
with status healthy when score ≥ 90, warning when ≥ 70, degraded when
≥ 50, critical otherwise, and unknown with score 0 when the list is empty;
four checks with statuses [ok, ok, warning, ok] still yield score 75 and
status warning. -/
theorem C2_health_score :
    (∀ (clusterID : String) (now : Nat) (cs : List HealthCheck),
      let hs := cs.foldl HealthStatus.AddCheck (NewHealthStatus clusterID now)
      (hs.score =
        if cs.length = 0 then 0
        else ((cs.countP fun c => c.status == "ok" || c.status == "healthy") * 100)
               / cs.length) ∧
      (hs.status =
        if cs.length = 0 then "unknown"
        else if hs.score ≥ 90 then "healthy"
        else if hs.score ≥ 70 then "warning"
        else if hs.score ≥ 50 then "degraded"
        else "critical")) ∧
    (exampleChecks.foldl HealthStatus.AddCheck (NewHealthStatus "cluster-1" 0)).score = 75 ∧
    (exampleChecks.foldl HealthStatus.AddCheck (NewHealthStatus "cluster-1" 0)).status = "warning" := by
  refine ⟨?_, by decide, by decide⟩
  intro clusterID now cs
  cases cs with
  | nil => exact ⟨rfl, rfl⟩
  | cons c cs =>
    rw [foldl_AddCheck_eq _ _ (by simp)]
    constructor
    · rw [HealthStatus.calculateScore_score]
      simp [NewHealthStatus]
    · rw [HealthStatus.calculateScore_status, HealthStatus.calculateScore_score]
      simp [NewHealthStatus]

/-! ### Claim C3 -/

/-- Claim C3: for the snapshot with ConnectionsActive 90 and
ConnectionsTotal 100 under the default thresholds with connection tiers
80 / 90 / 95, AnalyzeMetrics emits exactly one alert of the connection
category and its severity is high (90 ≥ 90 and 90 < 95). -/
theorem C3_connection_alert_high :
    ((AnalyzeMetrics DefaultThresholds 0 c3Metrics).filter
      (fun a => a.type == AlertType.connection)).map Alert.severity
      = [AlertSeverity.high] := by
  norm_num [AnalyzeMetrics, DefaultThresholds, c3Metrics, NewMetrics, NewAlert,
    Alert.AddAction, getSeverity, getSeverityBelow]
  decide

/-! ### Claims C4 and C5 -/

/-- An id whose lookup fails is exactly an id absent from the listed
cluster ids. -/
theorem lookup_eq_none_iff (reg : Registry) (clusterID : String) :
    reg.lookup clusterID = none ↔ clusterID ∉ GetAllClusters reg := by
  unfold Registry.lookup GetAllClusters
  rw [Option.map_eq_none', List.find?_eq_none]
  simp only [List.mem_map, beq_iff_eq, not_exists, not_and]

/-- Claim C4, counterexample: the claim quantifies over every registry
state, but when the id is already registered and the probe-failing config
is submitted again, AddCluster returns AlreadyExists rather than a
ConnectionError and the id remains in the listed cluster ids. -/
theorem C4_counterexample :
    (AddCluster probeFailEnv [("c1", samplePool)] "c1" sampleConfig).err =
      some RegistryError.alreadyExists ∧
    ((AddCluster probeFailEnv [("c1", samplePool)] "c1" sampleConfig).err.map
      RegistryError.isConnectionError) = some false ∧
    "c1" ∈ GetAllClusters
      (AddCluster probeFailEnv [("c1", samplePool)] "c1" sampleConfig).registry := by
  decide

/-- Claim C4 (amended): for every registry state in which the id is not yet
registered and every config that parses and builds its pool but whose
connectivity probe fails, AddCluster returns the probe-failure
ConnectionError, closes the partially built pool, and leaves the registry
unchanged: afterwards the id is absent from the listed cluster ids and
GetPool on it fails with NotFound. -/
theorem C4_probe_failure_rolls_back (env : DBEnv) (reg : Registry)
    (clusterID : String) (config : ConnectionConfig)
    (habs : reg.lookup clusterID = none)
    (hparse : env.parseOk (buildConnString config) = true)
    (hnew : env.newPoolOk (buildPoolConfig config) = true)
    (hping : env.pingOk (buildPoolConfig config) = false) :
    (AddCluster env reg clusterID config).err = some RegistryError.pingFailed ∧
    RegistryError.pingFailed.isConnectionError = true ∧
    (AddCluster env reg clusterID config).closedBuilt = true ∧
    (AddCluster env reg clusterID config).registry = reg ∧
    clusterID ∉ GetAllClusters (AddCluster env reg clusterID config).registry ∧
    GetPool (AddCluster env reg clusterID config).registry clusterID =
      .error RegistryError.notFound := by
  have hmain : AddCluster env reg clusterID config =
      { registry := reg, err := some .pingFailed,
        builtPool := some { config := buildPoolConfig config }, closedBuilt := true } := by
    simp [AddCluster, habs, hparse, hnew, hping]
  refine ⟨by rw [hmain], rfl, by rw [hmain], by rw [hmain], ?_, ?_⟩
  · rw [hmain]
    exact (lookup_eq_none_iff reg clusterID).mp habs
  · rw [hmain]
    simp [GetPool, habs]

/-- Witness for C4: the amended theorem applied to an empty registry, the
probe-failing oracle and the sample config. -/
theorem C4_witness :
    (AddCluster probeFailEnv [] "c1" sampleConfig).err = some RegistryError.pingFailed ∧
    RegistryError.pingFailed.isConnectionError = true ∧
    (AddCluster probeFailEnv [] "c1" sampleConfig).closedBuilt = true ∧
    (AddCluster probeFailEnv [] "c1" sampleConfig).registry = [] ∧
    "c1" ∉ GetAllClusters (AddCluster probeFailEnv [] "c1" sampleConfig).registry ∧
    GetPool (AddCluster probeFailEnv [] "c1" sampleConfig).registry "c1" =
      .error RegistryError.notFound :=
  C4_probe_failure_rolls_back probeFailEnv [] "c1" sampleConfig (by decide) rfl rfl rfl

/-- Claim C5: whenever the id is already registered, a second AddCluster
with that id fails with AlreadyExists before any pool construction, the
registry is unchanged, and GetPool still returns the original pool. -/
theorem C5_duplicate_add_rejected (env : DBEnv) (reg : Registry)
    (clusterID : String) (config : ConnectionConfig) (pool : Pool)
    (h : reg.lookup clusterID = some pool) :
    (AddCluster env reg clusterID config).err = some RegistryError.alreadyExists ∧
    (AddCluster env reg clusterID config).builtPool = none ∧
    (AddCluster env reg clusterID config).closedBuilt = false ∧
    (AddCluster env reg clusterID config).registry = reg ∧
    GetPool (AddCluster env reg clusterID config).registry clusterID = .ok pool := by
  have hmain : AddCluster env reg clusterID config =
      { registry := reg, err := some .alreadyExists, builtPool := none,
        closedBuilt := false } := by
    simp [AddCluster, h]
  refine ⟨by rw [hmain], by rw [hmain], by rw [hmain], by rw [hmain], ?_⟩
  rw [hmain]
  simp [GetPool, h]

/-- Witness for C5: the theorem applied to a registry already holding the
sample pool under the same id. -/
theorem C5_witness :
    (AddCluster probeFailEnv [("c1", samplePool)] "c1" sampleConfig).err =
      some RegistryError.alreadyExists ∧
    (AddCluster probeFailEnv [("c1", samplePool)] "c1" sampleConfig).builtPool = none ∧
    (AddCluster probeFailEnv [("c1", samplePool)] "c1" sampleConfig).closedBuilt = false ∧
    (AddCluster probeFailEnv [("c1", samplePool)] "c1" sampleConfig).registry =
      [("c1", samplePool)] ∧
    GetPool (AddCluster probeFailEnv [("c1", samplePool)] "c1" sampleConfig).registry "c1" =
      .ok samplePool :=
  C5_duplicate_add_rejected probeFailEnv [("c1", samplePool)] "c1" sampleConfig
    samplePool (by decide)

/-! ### Claim C6 -/

/-- When the pool lookup succeeds, CollectClusterMetrics returns exactly
the closed-form snapshot, whatever the success / failure pattern of the
eight statistics queries. -/
theorem CollectClusterMetrics_eq (env : CollectorEnv) (reg : Registry)
    (clusterID : String) (now : Nat) (pool : Pool)
    (hpool : reg.lookup clusterID = some pool) :
    CollectClusterMetrics env reg clusterID now =
      .ok (collectedSnapshot env clusterID now) := by
  simp only [CollectClusterMetrics, GetPool, hpool]
  rcases env with ⟨connQ, cacheQ, txnQ, lockQ, deadlockQ, replQ, bloatQ, diskQ⟩
  rcases connQ with _ | ⟨a, t⟩ <;> rcases cacheQ with _ | r <;>
    rcases txnQ with _ | x <;> rcases lockQ with _ | lw <;>
    rcases deadlockQ with _ | dl <;> rcases replQ with _ | lag <;>
    rcases bloatQ with _ | b <;> rcases diskQ with _ | ⟨br, bw⟩ <;> rfl

/-- Claim C6: when the pool lookup succeeds, CollectClusterMetrics always
returns a snapshot (it never aborts on a sub-collection failure); each
sub-collection that fails leaves its own snapshot fields at the zero
defaults, and each that succeeds populates its fields — in particular a
failing cache-ratio query leaves CacheHitRatio at zero while a successful
connection query still populates ConnectionsActive and ConnectionsTotal. -/
theorem C6_partial_failure_isolation (env : CollectorEnv) (reg : Registry)
    (clusterID : String) (now : Nat) (pool : Pool)
    (hpool : reg.lookup clusterID = some pool) :
    ∃ m, CollectClusterMetrics env reg clusterID now = .ok m ∧
      (env.cacheQ = none → m.cacheHitRatio = 0) ∧
      (∀ r, env.cacheQ = some r → m.cacheHitRatio = r) ∧
      (env.connQ = none → m.connectionsActive = 0 ∧ m.connectionsTotal = 0) ∧
      (∀ a t, env.connQ = some (a, t) →
        m.connectionsActive = a ∧ m.connectionsTotal = t) ∧
      (env.txnQ = none → m.transactionsPerSec = 0) ∧
      (env.lockQ = none → m.lockWaits = 0 ∧ m.deadlockCount = 0) ∧
      (env.replQ = none → m.replicationLag = 0) ∧
      (env.bloatQ = none → m.tableBloat = 0) ∧
      (env.diskQ = none → m.diskIORead = 0 ∧ m.diskIOWrite = 0) := by
  refine ⟨collectedSnapshot env clusterID now,
    CollectClusterMetrics_eq env reg clusterID now pool hpool,
    ?_, ?_, ?_, ?_, ?_, ?_, ?_, ?_, ?_⟩ <;>
    first
      | (intro h; simp [collectedSnapshot, h])
      | (intro v h; simp [collectedSnapshot, h])
      | (intro v w h; simp [collectedSnapshot, h])

/-- Witness for C6: the theorem applied to the one-cluster registry and
the oracle whose cache query fails. -/
theorem C6_witness :
    ∃ m, CollectClusterMetrics c6Env [("c1", samplePool)] "c1" 0 = .ok m ∧
      (c6Env.cacheQ = none → m.cacheHitRatio = 0) ∧
      (∀ r, c6Env.cacheQ = some r → m.cacheHitRatio = r) ∧
      (c6Env.connQ = none → m.connectionsActive = 0 ∧ m.connectionsTotal = 0) ∧
      (∀ a t, c6Env.connQ = some (a, t) →
        m.connectionsActive = a ∧ m.connectionsTotal = t) ∧
      (c6Env.txnQ = none → m.transactionsPerSec = 0) ∧
      (c6Env.lockQ = none → m.lockWaits = 0 ∧ m.deadlockCount = 0) ∧
      (c6Env.replQ = none → m.replicationLag = 0) ∧
      (c6Env.bloatQ = none → m.tableBloat = 0) ∧
      (c6Env.diskQ = none → m.diskIORead = 0 ∧ m.diskIOWrite = 0) :=
  C6_partial_failure_isolation c6Env [("c1", samplePool)] "c1" 0 samplePool (by decide)

/-! ### Claim C7 -/

/-- A Bool invariant of all elements survives choosing between two lists
that both satisfy it. -/
theorem all_cond {α : Type} {p : α → Bool} (c : Prop) [Decidable c]
    {l l' : List α} (h1 : l'.all p = true) (h2 : l.all p = true) :
    (if c then l' else l).all p = true := by
  split <;> assumption

/-- A Bool invariant of all elements survives appending one element that
satisfies it. -/
theorem all_append_singleton {α : Type} {p : α → Bool} {l : List α} {x : α}
    (hl : l.all p = true) (hx : p x = true) :
    (l ++ [x]).all p = true := by
  simp only [List.all_append, hl, List.all_cons, hx, List.all_nil]
  rfl

/-- A Bool invariant of all elements survives conditionally appending one
element that satisfies it (the shape of each alert block of the
analyzer). -/
theorem all_cond_append {α : Type} {p : α → Bool} (c : Prop) [Decidable c]
    {l : List α} {x : α} (hl : l.all p = true) (hx : p x = true) :
    (if c then l ++ [x] else l).all p = true := by
  split
  · exact all_append_singleton hl hx
  · exact hl

/-- Claim C7, counterexample: the high-temp-block alert of
AnalyzeQueryPerformance carries no metric name (the field stays empty, and
its threshold and current-value fields stay zero), refuting the claim that
every alert carries one. -/
theorem C7_counterexample :
    ¬ ∀ a ∈ AnalyzeQueryPerformance DefaultThresholds 0 c7QueryMetrics,
        a.metric ≠ "" := by
  decide

/-- Claim C7 (amended): every alert produced by AnalyzeMetrics or
AnalyzeQueryPerformance carries a non-empty list of suggested remediation
actions.  Every AnalyzeMetrics alert carries one of the eight metric names
together with the observed value of that metric, and the configured
threshold, except that the lock-wait and deadlock alerts leave the
threshold field at its zero default.  The slow-query alert carries its
metric name, the configured threshold and the observed execution time,
while the temp-block alert carries no metric name and leaves threshold
and current value at the zero defaults. -/
theorem C7_alert_payload (th : PerformanceThresholds) (now : Nat)
    (m : Metrics) (qm : QueryMetrics) :
    ((AnalyzeMetrics th now m).all fun a =>
      !a.actions.isEmpty &&
      (if a.metric == "connections_active" then
        a.threshold == th.maxConnectionsPercent &&
        a.currentValue == ((m.connectionsActive : ℚ) / (m.connectionsTotal : ℚ)) * 100
      else if a.metric == "cache_hit_ratio" then
        a.threshold == th.minCacheHitRatio && a.currentValue == m.cacheHitRatio
      else if a.metric == "cpu_usage" then
        a.threshold == th.maxCPUPercent && a.currentValue == m.cpuUsage
      else if a.metric == "memory_usage" then
        a.threshold == th.maxMemoryPercent && a.currentValue == m.memoryUsage
      else if a.metric == "replication_lag" then
        a.threshold == (th.maxReplicationLagMs : ℚ) &&
        a.currentValue == (m.replicationLag : ℚ)
      else if a.metric == "lock_waits" then
        a.threshold == 0 && a.currentValue == (m.lockWaits : ℚ)
      else if a.metric == "deadlock_count" then
        a.threshold == 0 && a.currentValue == (m.deadlockCount : ℚ)
      else if a.metric == "table_bloat" then
        a.threshold == th.maxTableBloatPercent && a.currentValue == m.tableBloat
      else false)) = true ∧
    ((AnalyzeQueryPerformance th now qm).all fun a =>
      !a.actions.isEmpty &&
      (if a.metric == "execution_time" then
        a.threshold == th.maxSlowQueryTimeMs && a.currentValue == qm.executionTime
      else a.metric == "" && a.threshold == 0 && a.currentValue == 0)) = true := by
  constructor
  · simp only [AnalyzeMetrics]
    repeat'
      first
        | apply all_cond_append
        | apply all_cond
        | apply all_append_singleton
    all_goals simp [Alert.AddAction, NewAlert]
  · simp only [AnalyzeQueryPerformance]
    repeat'
      first
        | apply all_cond_append
        | apply all_cond
        | apply all_append_singleton
    all_goals simp [Alert.AddAction, NewAlert]

/-! ### Claim C8 -/

/-- Clearing timestamps commutes with choosing the same branch of a
conditional on both sides. -/
theorem map_clear_if (c : Prop) [Decidable c] {a b a' b' : List Alert}
    (h1 : a.map Alert.clearTimestamp = a'.map Alert.clearTimestamp)
    (h2 : b.map Alert.clearTimestamp = b'.map Alert.clearTimestamp) :
    (if c then a else b).map Alert.clearTimestamp =
      (if c then a' else b').map Alert.clearTimestamp := by
  split <;> assumption

/-- Clearing timestamps respects appending alerts equal up to timestamp. -/
theorem map_clear_append {l l' : List Alert} {x x' : Alert}
    (hl : l.map Alert.clearTimestamp = l'.map Alert.clearTimestamp)
    (hx : Alert.clearTimestamp x = Alert.clearTimestamp x') :
    (l ++ [x]).map Alert.clearTimestamp =
      (l' ++ [x']).map Alert.clearTimestamp := by
  simp only [List.map_append, List.map_cons, List.map_nil, hl, hx]

/-- Claim C8, counterexample: alerts record the wall-clock time at which
NewAlert ran, so two invocations of AnalyzeMetrics on the identical
snapshot at different instants return alert lists differing in the
Timestamp field. -/
theorem C8_counterexample :
    AnalyzeMetrics DefaultThresholds 0 c1Metrics ≠
      AnalyzeMetrics DefaultThresholds 1 c1Metrics := by
  decide

/-- Claim C8 (amended): AnalyzeMetrics invoked twice on an identical
snapshot with identical thresholds returns two alert lists equal in
length, ordering, and every field value except the creation timestamp,
whatever the two invocation instants were. -/
theorem C8_deterministic_modulo_timestamp (th : PerformanceThresholds)
    (t1 t2 : Nat) (m : Metrics) :
    (AnalyzeMetrics th t1 m).map Alert.clearTimestamp =
      (AnalyzeMetrics th t2 m).map Alert.clearTimestamp := by
  simp only [AnalyzeMetrics]
  repeat'
    first
      | apply map_clear_if
      | apply map_clear_append
  all_goals rfl

/-! ### Claim C9 -/

/-- Claim C9: when ConnectionsTotal is zero or negative, the utilization
percentage is never formed: AnalyzeMetrics emits no connection-category
alert whatever ConnectionsActive holds, and GenerateHealthStatus adds no
Connection Pool check. -/
theorem C9_zero_total_no_connection (th : PerformanceThresholds) (now : Nat)
    (m : Metrics) (clusterID : String) (alerts : List Alert)
    (h : m.connectionsTotal ≤ 0) :
    ((AnalyzeMetrics th now m).all
      (fun a => !(a.type == AlertType.connection))) = true ∧
    (((GenerateHealthStatus th clusterID m alerts now).checks.all
      (fun c => !(c.name == "Connection Pool"))) = true) := by
  have hcond : ¬ (m.connectionsTotal > 0) := by omega
  constructor
  · simp only [AnalyzeMetrics, if_neg hcond]
    repeat'
      first
        | apply all_cond
        | apply all_append_singleton
    all_goals rfl
  · simp [GenerateHealthStatus, hcond, NewHealthStatus, HealthStatus.AddCheck]

/-- Witness for C9: the theorem applied to the cache-ratio-82 snapshot,
whose ConnectionsTotal is zero. -/
theorem C9_witness :
    ((AnalyzeMetrics DefaultThresholds 0 c1Metrics).all
      (fun a => !(a.type == AlertType.connection))) = true ∧
    (((GenerateHealthStatus DefaultThresholds "cluster-1" c1Metrics [] 0).checks.all
      (fun c => !(c.name == "Connection Pool"))) = true) :=
  C9_zero_total_no_connection DefaultThresholds 0 c1Metrics "cluster-1" [] (by decide)

/-! ### Claim C10 -/

/-- The check list after AddCheck is the old list with the check behind. -/
@[simp]
theorem HealthStatus.AddCheck_checks (hs : HealthStatus) (c : HealthCheck) :
    (hs.AddCheck c).checks = hs.checks ++ [c] := by
  unfold HealthStatus.AddCheck
  simp

/-- The score after AddCheck, in closed form (the check list is nonempty,
so the empty-list branch of calculateScore is dead). -/
theorem HealthStatus.AddCheck_score (hs : HealthStatus) (c : HealthCheck) :
    (hs.AddCheck c).score =
      (((hs.checks ++ [c]).countP fun x => x.status == "ok" || x.status == "healthy") * 100)
        / (hs.checks ++ [c]).length := by
  unfold HealthStatus.AddCheck
  rw [HealthStatus.calculateScore_score]
  simp

/-- The status after AddCheck, in closed form. -/
theorem HealthStatus.AddCheck_status (hs : HealthStatus) (c : HealthCheck) :
    (hs.AddCheck c).status =
      (let score :=
        (((hs.checks ++ [c]).countP fun x => x.status == "ok" || x.status == "healthy") * 100)
          / (hs.checks ++ [c]).length
       if score ≥ 90 then "healthy"
       else if score ≥ 70 then "warning"
       else if score ≥ 50 then "degraded"
       else "critical") := by
  unfold HealthStatus.AddCheck
  rw [HealthStatus.calculateScore_status]
  simp

/-- A check list with at least one passing check among at most five scores
at least 20 under the calculateScore formula. -/
theorem score_lower_bound (l : List HealthCheck) (p : HealthCheck → Bool)
    (h1 : 1 ≤ l.countP p) (h5 : l.length ≤ 5) :
    20 ≤ (l.countP p * 100) / l.length := by
  have hle : l.countP p ≤ l.length := l.countP_le_length p
  have hn : 0 < l.length := by omega
  rw [Nat.le_div_iff_mul_le hn]
  omega

/-- Claim C10: GenerateHealthStatus always adds the Database Connectivity
check with status ok, so the result has at least one passing check among
at most five, its score is at least 20, and its status is never
unknown. -/
theorem C10_health_invariants (th : PerformanceThresholds) (clusterID : String)
    (m : Metrics) (alerts : List Alert) (now : Nat) :
    ((GenerateHealthStatus th clusterID m alerts now).checks.any
      (fun c => c.name == "Database Connectivity" && c.status == "ok")) = true ∧
    (GenerateHealthStatus th clusterID m alerts now).checks.length ≤ 5 ∧
    1 ≤ ((GenerateHealthStatus th clusterID m alerts now).checks.countP
      (fun c => c.status == "ok" || c.status == "healthy")) ∧
    20 ≤ (GenerateHealthStatus th clusterID m alerts now).score ∧
    (GenerateHealthStatus th clusterID m alerts now).status ≠ "unknown" := by
  refine ⟨?_, ?_, ?_, ?_, ?_⟩
  · by_cases hc : m.connectionsTotal > 0 <;>
      simp [GenerateHealthStatus, hc, NewHealthStatus]
  · by_cases hc : m.connectionsTotal > 0 <;>
      simp [GenerateHealthStatus, hc, NewHealthStatus]
  · by_cases hc : m.connectionsTotal > 0 <;>
      simp [GenerateHealthStatus, hc, NewHealthStatus, List.countP_cons]
  · simp only [GenerateHealthStatus]
    rw [HealthStatus.AddCheck_score]
    apply score_lower_bound
    · by_cases hc : m.connectionsTotal > 0 <;>
        simp [hc, NewHealthStatus, List.countP_cons]
    · by_cases hc : m.connectionsTotal > 0 <;>
        simp [hc, NewHealthStatus]
  · simp only [GenerateHealthStatus]
    rw [HealthStatus.AddCheck_status]
    simp only []
    split_ifs <;> simp

end Pgao
